import Mathlib

/-!
A verification development for the search-provider failover router
(`src/core/search_adapters.py`).  The Python module is shallowly embedded:

* the JSON configuration file is modelled by `FileContent` / `JVal`;
* the process-wide mutable cooldown dictionaries `_COOLDOWN_UNTIL` and
  `_SOURCE_COOLDOWN_UNTIL` become explicit fields of `GlobalState`,
  threaded through the failover executors;
* network calls (`_json_post`/`_json_get` plus the per-provider
  normalizers) are abstracted by an oracle `Net`: `Net.provider pid q k`
  is the normalized result list (or error text) of one wire call;
* Python floats for epoch seconds become `Int`; the two `time.time()`
  reads inside one executor call are modelled as a single instant `now`;
* `save_search_adapters` always succeeds (I/O failure is not modelled).

Every definition follows the corresponding Python function line by line;
comments cite the source lines.
-/

/-- A JSON value, as produced by `json.load` / consumed by `json.dump`. -/
inductive JVal where
  | null
  | bool (b : Bool)
  | num (n : Int)
  | str (s : String)
  | arr (xs : List JVal)
  | obj (fields : List (String × JVal))

/-- Python truthiness (`bool(v)`) of a JSON value. -/
def pyTruthy : JVal → Bool
  | .null => false
  | .bool b => b
  | .num n => n ≠ 0
  | .str s => s ≠ ""
  | .arr xs => !xs.isEmpty
  | .obj fs => !fs.isEmpty

mutual
/-- Python `repr` of a JSON value (only the `.str` branch differs from `str`). -/
def pyRepr : JVal → String
  | .null => "None"
  | .bool true => "True"
  | .bool false => "False"
  | .num n => toString n
  | .str s => "\x27" ++ s ++ "\x27"
  | .arr xs => "[" ++ pyReprList xs ++ "]"
  | .obj fs => "\x7b" ++ pyReprFields fs ++ "\x7d"

def pyReprList : List JVal → String
  | [] => ""
  | [x] => pyRepr x
  | x :: xs => pyRepr x ++ ", " ++ pyReprList xs

def pyReprFields : List (String × JVal) → String
  | [] => ""
  | [(k, v)] => "\x27" ++ k ++ "\x27: " ++ pyRepr v
  | (k, v) :: fs => "\x27" ++ k ++ "\x27: " ++ pyRepr v ++ ", " ++ pyReprFields fs
end

/-- Python `str` of a JSON value. -/
def pyStr : JVal → String
  | .str s => s
  | v => pyRepr v

/-- Python `dict.get` on a JSON object (keys are unique in any parsed object). -/
def jGet (fs : List (String × JVal)) (k : String) : Option JVal :=
  (fs.find? (fun kv => kv.1 == k)).map (fun kv => kv.2)

/-- Python `str.strip()` (ASCII whitespace at both ends). -/
def pyStrip (s : String) : String :=
  ⟨((s.data.dropWhile Char.isWhitespace).reverse.dropWhile
      Char.isWhitespace).reverse⟩

/-- Python `str.lower()`. -/
def pyLower (s : String) : String := ⟨s.data.map Char.toLower⟩

/-- Python `.strip().lower()`, the id-normalization used throughout the module. -/
def pyNorm (s : String) : String := pyLower (pyStrip s)

def splitColonTailAux : List Char → List Char
  | [] => []
  | c :: cs => if c = ':' then cs else splitColonTailAux cs

/-- Python `s.split(":", 1)[1]`: everything after the first colon (the module only
applies this to strings that contain one). -/
def splitColonTail (s : String) : String := ⟨splitColonTailAux s.data⟩

def containsAux (needle : List Char) : List Char → Bool
  | [] => needle.isPrefixOf []
  | c :: t => if needle.isPrefixOf (c :: t) then true else containsAux needle t

/-- Python `needle in hay`. -/
def strContains (hay needle : String) : Bool := containsAux needle.data hay.data

/-- Python `s.startswith(p)`. -/
def strStartsWith (s p : String) : Bool := p.data.isPrefixOf s.data

/-- Python `sep.join(parts)`. -/
def strJoin (sep : String) : List String → String
  | [] => ""
  | [x] => x
  | x :: xs => x ++ sep ++ strJoin sep xs

def digitsToNatAux : List Char → Nat → Option Nat
  | [], acc => some acc
  | c :: cs, acc =>
      if c.isDigit then digitsToNatAux cs (acc * 10 + (c.toNat - 48)) else none

/-- Python `int(s)` for a string: optional sign, decimal digits,
surrounding whitespace tolerated; `none` models a raised `ValueError`. -/
def pyToInt (s : String) : Option Int :=
  match (pyStrip s).data with
  | [] => none
  | '-' :: rest =>
      if rest.isEmpty then none
      else (digitsToNatAux rest 0).map (fun n => -(n : Int))
  | '+' :: rest =>
      if rest.isEmpty then none
      else (digitsToNatAux rest 0).map (fun n => (n : Int))
  | cs =>
      if (cs.all Char.isDigit) then (digitsToNatAux cs 0).map (fun n => (n : Int))
      else none

/-- Python `int()` applied to a JSON value: `none` models a raised
`TypeError`/`ValueError`.  (`int(True) = 1`, `int("12") = 12`.) -/
def jToInt : JVal → Option Int
  | .num n => some n
  | .bool true => some 1
  | .bool false => some 0
  | .str s => pyToInt s
  | _ => none

/-- The coercion `str(<maybe value> or "")`: the merge idiom of `load_search_adapters`. -/
def strOr (v : Option JVal) : String :=
  match v with
  | none => ""
  | some jv => if pyTruthy jv then pyStr jv else ""

/-- The coercion `str(src.get(key, dflt) or "")` where `dflt` is already a string. -/
def strOrDefault (v : Option JVal) (dflt : String) : String :=
  match v with
  | none => dflt
  | some jv => if pyTruthy jv then pyStr jv else ""

/-- One normalized search result (`title/url/snippet/source`). -/
structure SearchResult where
  title : String
  url : String
  snippet : String
  source : String
deriving Repr, DecidableEq

/-- One `providers[pid]` entry.  `cooldownSeconds` is optional because
`_default_config` does not create the key; only `update_provider` adds it. -/
structure AdapterConfig where
  enabled : Bool
  apiKey : String
  baseUrl : String
  model : String
  topK : Int
  cooldownSeconds : Option Int
deriving Repr, DecidableEq

/-- The fixed key set of `ADAPTER_SPECS` (`zhipu`, `serper`, `tavily`). -/
def ADAPTER_SPECS_ids : List String := ["zhipu", "serper", "tavily"]

/-- The table entry `ADAPTER_SPECS[pid]["defaultBaseUrl"]`. -/
def defaultBaseUrl (pid : String) : String :=
  if pid = "zhipu" then "https://open.bigmodel.cn/api/paas/v4/web_search"
  else if pid = "serper" then "https://google.serper.dev/search"
  else if pid = "tavily" then "https://api.tavily.com/search"
  else ""

/-- The constant `OFFICIAL_SEARCH_SOURCES`. -/
def OFFICIAL_SEARCH_SOURCES : List String :=
  ["official:brave", "official:perplexity", "official:grok",
   "official:gemini", "official:kimi"]

/-- The `providers` map: after `_default_config`/merge it always holds
exactly the three known adapter ids. -/
structure ProvidersConfig where
  zhipu : AdapterConfig
  serper : AdapterConfig
  tavily : AdapterConfig
deriving Repr, DecidableEq

/-- Lookup `providers.get(pid, {})`; the fall-through value mirrors the lookups
performed on an empty dict (`bool(None)`, `str(None or "")`, …). -/
def ProvidersConfig.get (ps : ProvidersConfig) (pid : String) : AdapterConfig :=
  if pid = "zhipu" then ps.zhipu
  else if pid = "serper" then ps.serper
  else if pid = "tavily" then ps.tavily
  else ⟨false, "", "", "", 0, none⟩

/-- Assignment `cfg["providers"][pid] = p` for a known `pid`. -/
def ProvidersConfig.set (ps : ProvidersConfig) (pid : String) (p : AdapterConfig) :
    ProvidersConfig :=
  if pid = "zhipu" then { ps with zhipu := p }
  else if pid = "serper" then { ps with serper := p }
  else if pid = "tavily" then { ps with tavily := p }
  else ps

/-- The persisted root object, in the shape produced by
`_default_config`/`load_search_adapters`. -/
structure RouterConfig where
  active : String
  primary : String
  fallbacks : List String
  primarySource : String
  fallbackSources : List String
  activeSource : String
  providers : ProvidersConfig
deriving Repr, DecidableEq

/-- The builder `_default_config()` (lines 49-67). -/
def default_config : RouterConfig :=
  { active := ""
    primary := ""
    fallbacks := []
    primarySource := ""
    fallbackSources := []
    activeSource := ""
    providers :=
      { zhipu := ⟨false, "", defaultBaseUrl "zhipu", "", 5, none⟩
        serper := ⟨false, "", defaultBaseUrl "serper", "", 5, none⟩
        tavily := ⟨false, "", defaultBaseUrl "tavily", "", 5, none⟩ } }

/-- The state of the backing file at the configured path. -/
inductive FileContent where
  | absent
  | notJson (raw : String)
  | json (v : JVal)

/-- Serialization of one provider entry; `cooldownSeconds` is written only
when the key exists (json.dump writes whatever keys the dict holds). -/
def serializeProvider (p : AdapterConfig) : JVal :=
  .obj ([("enabled", .bool p.enabled), ("apiKey", .str p.apiKey),
         ("baseUrl", .str p.baseUrl), ("model", .str p.model),
         ("topK", .num p.topK)] ++
        (match p.cooldownSeconds with
         | some c => [("cooldownSeconds", JVal.num c)]
         | none => []))

/-- Serialization of the root object, in `_default_config` key order. -/
def serializeConfig (cfg : RouterConfig) : JVal :=
  .obj [("active", .str cfg.active), ("primary", .str cfg.primary),
        ("fallbacks", .arr (cfg.fallbacks.map JVal.str)),
        ("primarySource", .str cfg.primarySource),
        ("fallbackSources", .arr (cfg.fallbackSources.map JVal.str)),
        ("activeSource", .str cfg.activeSource),
        ("providers", .obj [("zhipu", serializeProvider cfg.providers.zhipu),
                            ("serper", serializeProvider cfg.providers.serper),
                            ("tavily", serializeProvider cfg.providers.tavily)])]

/-- Embeds `save_search_adapters` (lines 125-132): whole-file rewrite.  I/O always
succeeds in the model, so the Python `bool` result is constantly `true`. -/
def save_search_adapters (cfg : RouterConfig) : FileContent :=
  .json (serializeConfig cfg)

/-- The merge of one `providers[pid]` entry (lines 111-121).  Note that
`cooldownSeconds` is never read back: the merged entry keeps the default
(`none`), whatever the stored object holds. -/
def mergeProvider (src : Option JVal) (dst : AdapterConfig) : AdapterConfig :=
  let fs := match src with
            | some (.obj fs) => fs
            | _ => []                      -- `if isinstance(...) else {}`
  let enabled := match jGet fs "enabled" with
                 | none => dst.enabled
                 | some v => pyTruthy v
  let apiKey := strOrDefault (jGet fs "apiKey") dst.apiKey
  let baseUrl := strOrDefault (jGet fs "baseUrl") dst.baseUrl
  let model := strOrDefault (jGet fs "model") dst.model
  let topK := match jGet fs "topK" with
              | none => max 1 (min 20 dst.topK)
              | some v => match jToInt v with
                          | some n => max 1 (min 20 n)
                          | none => dst.topK   -- `except Exception: pass`
  { enabled := enabled, apiKey := apiKey, baseUrl := baseUrl,
    model := model, topK := topK, cooldownSeconds := dst.cooldownSeconds }

/-- The top-level merge of `load_search_adapters` (lines 91-122). -/
def mergeConfig (fs : List (String × JVal)) : RouterConfig :=
  let d := default_config
  let active := strOr (jGet fs "active")
  let primary := match jGet fs "primary" with
                 | some jv => if pyTruthy jv then pyStr jv
                              else if active ≠ "" then active else ""
                 | none => if active ≠ "" then active else ""
  let activeSource := strOr (jGet fs "activeSource")
  let primarySource := strOr (jGet fs "primarySource")
  let fallbackSources := match jGet fs "fallbackSources" with
    | some (.arr items) =>
        items.foldl (fun acc item =>
          let sid := pyNorm (strOr (some item))
          if sid ≠ "" ∧ sid ∉ acc then acc ++ [sid] else acc) []
    | _ => []
  let fallbacks := match jGet fs "fallbacks" with
    | some (.arr items) =>
        items.foldl (fun acc item =>
          let pid := pyNorm (strOr (some item))
          if pid ∈ ADAPTER_SPECS_ids ∧ pid ∉ acc then acc ++ [pid] else acc) []
    | _ => []
  let providers := jGet fs "providers"
  let pfs := match providers with
             | some (.obj pfs) => pfs
             | _ => []
  { active := active, primary := primary, fallbacks := fallbacks,
    primarySource := primarySource, fallbackSources := fallbackSources,
    activeSource := activeSource,
    providers :=
      { zhipu := mergeProvider (jGet pfs "zhipu") d.providers.zhipu
        serper := mergeProvider (jGet pfs "serper") d.providers.serper
        tavily := mergeProvider (jGet pfs "tavily") d.providers.tavily } }

/-- Embeds `load_search_adapters` (lines 76-122).  Returns the loaded config and
the resulting file state (defaults are written back when the file is
absent, unparsable, or not a JSON object). -/
def load_search_adapters (file : FileContent) : RouterConfig × FileContent :=
  match file with
  | .absent => (default_config, save_search_adapters default_config)
  | .notJson _ => (default_config, save_search_adapters default_config)
  | .json v =>
    match v with
    | .obj fs => (mergeConfig fs, file)
    | _ => (default_config, save_search_adapters default_config)

/-- Embeds `set_active_provider` (lines 135-142).  Loading happens before
validation, so an invalid id still leaves the (possibly default-created)
file behind. -/
def set_active_provider (provider_id : String) (file : FileContent) :
    Bool × FileContent :=
  let cfg := (load_search_adapters file).1
  let file1 := (load_search_adapters file).2
  let pid := pyNorm provider_id
  if pid ≠ "" ∧ pid ∉ ADAPTER_SPECS_ids then (false, file1)
  else (true, save_search_adapters { cfg with active := pid, primary := pid })

/-- Embeds `set_primary_provider` (lines 145-155): validates before loading, and
mirrors a non-empty id into the unified fields. -/
def set_primary_provider (provider_id : String) (file : FileContent) :
    Bool × FileContent :=
  let pid := pyNorm provider_id
  if pid ≠ "" ∧ pid ∉ ADAPTER_SPECS_ids then (false, file)
  else
    let cfg := (load_search_adapters file).1
    let cfg := { cfg with primary := pid, active := pid }
    let cfg := if pid ≠ "" then
        { cfg with primarySource := "adapter:" ++ pid,
                   activeSource := "adapter:" ++ pid }
      else cfg
    (true, save_search_adapters cfg)

/-- The normalization loop of `set_fallback_providers` (lines 160-164):
keep known adapter ids, deduplicated, in input order. -/
def normalize_provider_ids (provider_ids : List String) : List String :=
  provider_ids.foldl (fun acc item =>
    let pid := pyNorm item
    if pid ∈ ADAPTER_SPECS_ids ∧ pid ∉ acc then acc ++ [pid] else acc) []

/-- Embeds `set_fallback_providers` (lines 158-168): always stores the normalized
list into `fallbacks`, and mirrors it into `fallbackSources` only when it
is non-empty. -/
def set_fallback_providers (provider_ids : List String) (file : FileContent) :
    Bool × FileContent :=
  let cfg := (load_search_adapters file).1
  let normalized := normalize_provider_ids provider_ids
  let cfg := { cfg with fallbacks := normalized }
  let cfg := if normalized ≠ [] then
      { cfg with fallbackSources := normalized.map (fun x => "adapter:" ++ x) }
    else cfg
  (true, save_search_adapters cfg)

/-- Embeds `set_primary_source` (lines 171-183): accepts the empty string, any
member of `OFFICIAL_SEARCH_SOURCES`, and *any* string starting with
`"adapter:"`; an accepted `adapter:`-prefixed id is mirrored into the
legacy `primary`/`active` fields. -/
def set_primary_source (source_id : String) (file : FileContent) :
    Bool × FileContent :=
  let sid := pyNorm source_id
  if sid ≠ "" ∧ ¬ (sid ∈ OFFICIAL_SEARCH_SOURCES ∨ strStartsWith sid "adapter:" = true)
  then (false, file)
  else
    let cfg := (load_search_adapters file).1
    let cfg := { cfg with primarySource := sid, activeSource := sid }
    let cfg := if strStartsWith sid "adapter:" then
        { cfg with primary := splitColonTail sid, active := splitColonTail sid }
      else cfg
    (true, save_search_adapters cfg)

/-- The normalization loop of `set_fallback_sources` (lines 188-195). -/
def normalize_source_ids (source_ids : List String) : List String :=
  source_ids.foldl (fun acc item =>
    let sid := pyNorm item
    if sid = "" then acc
    else if (sid ∈ OFFICIAL_SEARCH_SOURCES ∨ strStartsWith sid "adapter:" = true)
            ∧ sid ∉ acc
    then acc ++ [sid] else acc) []

/-- Embeds `set_fallback_sources` (lines 186-197). -/
def set_fallback_sources (source_ids : List String) (file : FileContent) :
    Bool × FileContent :=
  let cfg := (load_search_adapters file).1
  (true, save_search_adapters
    { cfg with fallbackSources := normalize_source_ids source_ids })

/-- The `updates` dict of `update_provider`.  `none` covers both an absent
key and (for the int fields) an `int()` conversion failure, which the
Python silently ignores. -/
structure ProviderUpdates where
  enabled : Option Bool := none
  apiKey : Option String := none
  baseUrl : Option String := none
  model : Option String := none
  topK : Option Int := none
  cooldownSeconds : Option Int := none

/-- Embeds `update_provider` (lines 200-225).  `cooldownSeconds` is clamped to
[5,3600] and stored; `topK` is clamped to [1,20]. -/
def update_provider (provider_id : String) (updates : ProviderUpdates)
    (file : FileContent) : Bool × FileContent :=
  let pid := pyNorm provider_id
  if pid ∉ ADAPTER_SPECS_ids then (false, file)
  else
    let cfg := (load_search_adapters file).1
    let p := cfg.providers.get pid
    let p := match updates.enabled with
             | some b => { p with enabled := b }
             | none => p
    let p := match updates.apiKey with        -- str(updates.get("apiKey") or "")
             | some s => { p with apiKey := s }
             | none => p
    let p := match updates.baseUrl with       -- falsy input keeps the old URL
             | some s => { p with baseUrl := if s ≠ "" then s else p.baseUrl }
             | none => p
    let p := match updates.model with
             | some s => { p with model := s }
             | none => p
    let p := match updates.topK with
             | some k => { p with topK := max 1 (min 20 k) }
             | none => p
    let p := match updates.cooldownSeconds with
             | some c => { p with cooldownSeconds := some (max 5 (min 3600 c)) }
             | none => p
    (true, save_search_adapters { cfg with providers := cfg.providers.set pid p })

/-- The network oracle.  `provider pid query topK` stands for one wire
call of the matching third-party adapter followed by its normalizer
(result rows without a URL already dropped); `official query count`
stands for the Brave GET plus `_normalize_brave`; `braveKey` is the key
resolved by `_official_brave_api_key` (host config, then environment). -/
structure Net where
  provider : String → String → Int → Except String (List SearchResult)
  official : String → Int → Except String (List SearchResult)
  braveKey : String

/-- Embeds `search_with_provider` (lines 352-395).  The file is threaded because
the internal `load_search_adapters` may create defaults.  The returned
`Except.error` text is the message of the raised Python exception. -/
def search_with_provider (net : Net) (provider_id query : String) (count : Int)
    (file : FileContent) : Except String (List SearchResult) × FileContent :=
  let pid := pyNorm provider_id
  if pid ∉ ADAPTER_SPECS_ids then
    (.error ("unsupported provider: " ++ provider_id), file)
  else
    let cfg := (load_search_adapters file).1
    let file1 := (load_search_adapters file).2
    let provider := cfg.providers.get pid
    let api_key := provider.apiKey
    let base_url := provider.baseUrl
    -- top_k = int(provider.get("topK", count or 5) or 5), clamped; an
    -- explicit non-zero count overrides it (line 363-364)
    let top_k0 := if provider.topK ≠ 0 then provider.topK else 5
    let top_k := if count ≠ 0 then max 1 (min 20 count) else max 1 (min 20 top_k0)
    if api_key = "" then (.error "missing api key", file1)
    else if base_url = "" then (.error "missing base url", file1)
    else (net.provider pid query top_k, file1)

/-- Embeds `search_with_official_source` (lines 336-349). -/
def search_with_official_source (net : Net) (source_id query : String)
    (count : Int) : Except String (List SearchResult) :=
  let sid := pyNorm source_id
  if sid ≠ "official:brave" then
    .error ("unsupported official source for failover: " ++ sid)
  else if net.braveKey = "" then .error "official:brave missing api key"
  else
    let c := max 1 (min 10 (if count ≠ 0 then count else 5))
    net.official query c

/-- Embeds `_is_rate_limit_error` (lines 398-401). -/
def is_rate_limit_error (msg : String) : Bool :=
  let text := pyLower msg
  ["429", "rate limit", "too many requests", "quota", "限流", "配额"].any
    (fun p => strContains text p)

/-- Embeds `_provider_cooldown_seconds` (lines 404-409): the stored value if the
key exists (default 60, `or 60` for a zero), clamped to [5,3600]. -/
def provider_cooldown_seconds (p : AdapterConfig) : Int :=
  let v := p.cooldownSeconds.getD 60
  let v := if v = 0 then 60 else v
  max 5 (min 3600 v)

/-- Embeds `_provider_chain` (lines 412-422). -/
def provider_chain (cfg : RouterConfig) : List String :=
  let primary := pyNorm (if cfg.primary ≠ "" then cfg.primary else cfg.active)
  let chain := if primary ∈ ADAPTER_SPECS_ids then [primary] else []
  cfg.fallbacks.foldl (fun chain item =>
    let pid := pyNorm item
    if pid ∈ ADAPTER_SPECS_ids ∧ pid ∉ chain then chain ++ [pid] else chain) chain

/-- Embeds `_source_chain` (lines 425-442). -/
def source_chain (cfg : RouterConfig) : List String :=
  let primary := pyNorm cfg.primarySource
  let primary := if primary = "" then
      (let legacy := pyNorm (if cfg.primary ≠ "" then cfg.primary else cfg.active)
       if legacy ≠ "" then "adapter:" ++ legacy else "")
    else primary
  let fallbacks := if cfg.fallbackSources ≠ [] then cfg.fallbackSources
    else (cfg.fallbacks.filter (fun x => pyStrip x != "")).map
           (fun x => "adapter:" ++ pyNorm x)
  let chain := if primary ≠ "" then [primary] else []
  fallbacks.foldl (fun chain sid =>
    let norm := pyNorm sid
    if norm ≠ "" ∧ norm ∉ chain then chain ++ [norm] else chain) chain

/-- Embeds `_source_cooldown_seconds` (lines 479-486). -/
def source_cooldown_seconds (cfg : RouterConfig) (source_id : String) : Int :=
  let sid := pyNorm source_id
  if strStartsWith sid "adapter:" then
    provider_cooldown_seconds (cfg.providers.get (splitColonTail sid))
  else 60

/-- The process-wide mutable state: the backing file plus the two
module-level cooldown dictionaries (`_COOLDOWN_UNTIL`, keyed by adapter
id, and `_SOURCE_COOLDOWN_UNTIL`, keyed by source id). -/
structure GlobalState where
  file : FileContent
  cooldownUntil : List (String × Int)
  sourceCooldownUntil : List (String × Int)

/-- Lookup `d.get(k, 0.0)` on a cooldown dictionary (latest binding wins). -/
def lookupD (m : List (String × Int)) (k : String) : Int :=
  ((m.find? (fun kv => kv.1 == k)).map (fun kv => kv.2)).getD 0

/-- The Python f-string `f"{sid}:{reason}"` used for per-candidate records. -/
def recOf (sid reason : String) : String := sid ++ ":" ++ reason

/-- Result of one executor call: the returned value (or raised error
message), the final global state, and the per-candidate records the walk
collected (the Python local `errors`, exposed for observability). -/
structure FailoverOut where
  res : Except String (List SearchResult)
  st : GlobalState
  records : List String

/-- The candidate walk of `search_with_failover` (lines 452-475). -/
def legacy_loop (net : Net) (query : String) (count now : Int)
    (cfg : RouterConfig) :
    List String → List String → GlobalState → FailoverOut
  | [], errors, st =>
      ⟨.error ("all providers failed: " ++ strJoin " | " errors),
       st, errors⟩
  | pid :: rest, errors, st =>
      let p_cfg := cfg.providers.get pid
      if ¬ p_cfg.enabled then
        legacy_loop net query count now cfg rest
          (errors ++ [recOf pid "disabled"]) st
      else if pyStrip p_cfg.apiKey = "" then
        legacy_loop net query count now cfg rest
          (errors ++ [recOf pid "missing-key"]) st
      else if lookupD st.cooldownUntil pid > now then
        legacy_loop net query count now cfg rest
          (errors ++ [recOf pid "cooldown"]) st
      else
        match search_with_provider net pid query count st.file with
        | (.ok results, _) =>
            -- success: persist `active = pid` and return (lines 468-470)
            ⟨.ok results,
             { st with file := save_search_adapters ({ cfg with active := pid }) },
             errors⟩
        | (.error e, file1) =>
            let st1 := { st with file := file1 }
            let st2 := if is_rate_limit_error e then
                { st1 with cooldownUntil :=
                    (pid, now + provider_cooldown_seconds p_cfg)
                      :: st1.cooldownUntil }
              else st1
            legacy_loop net query count now cfg rest
              (errors ++ [recOf pid e]) st2

/-- Embeds `search_with_failover` (lines 445-476). -/
def search_with_failover (net : Net) (query : String) (count now : Int)
    (st : GlobalState) : FailoverOut :=
  let cfg := (load_search_adapters st.file).1
  let st1 := { st with file := (load_search_adapters st.file).2 }
  let chain := provider_chain cfg
  if chain = [] then
    ⟨.error "no primary/fallback provider configured", st1, []⟩
  else legacy_loop net query count now cfg chain [] st1

/-- The body of the `try` block of `search_with_unified_failover`
(lines 501-514): dispatch on the source id's tag, attempt the matching
adapter or official search, and on success persist the active markers. -/
def unified_attempt (net : Net) (query : String) (count : Int)
    (cfg : RouterConfig) (sid : String) (st : GlobalState) :
    Except String (List SearchResult) × GlobalState :=
  if strStartsWith sid "adapter:" then
    let pid := splitColonTail sid
    match search_with_provider net pid query count st.file with
    | (.ok results, _) =>
        let cfg1 := { cfg with active := pid, activeSource := sid }
        (.ok results, { st with file := save_search_adapters cfg1 })
    | (.error e, file1) => (.error e, { st with file := file1 })
  else if strStartsWith sid "official:" then
    match search_with_official_source net sid query count with
    | .ok results =>
        let cfg1 := { cfg with activeSource := sid }
        (.ok results, { st with file := save_search_adapters cfg1 })
    | .error e => (.error e, st)
  else (.error "invalid source", st)   -- raised and caught by the except

/-- The candidate walk of `search_with_unified_failover` (lines 496-518).
Note there is no enabled/apiKey pre-check here: only the cooldown gate,
then the attempt inside the `try` block. -/
def unified_loop (net : Net) (query : String) (count now : Int)
    (cfg : RouterConfig) :
    List String → List String → GlobalState → FailoverOut
  | [], errors, st =>
      ⟨.error ("all sources failed: " ++ strJoin " | " errors),
       st, errors⟩
  | sid :: rest, errors, st =>
      if lookupD st.sourceCooldownUntil sid > now then
        unified_loop net query count now cfg rest
          (errors ++ [recOf sid "cooldown"]) st
      else
        match unified_attempt net query count cfg sid st with
        | (.ok results, st1) => ⟨.ok results, st1, errors⟩
        | (.error e, st1) =>
            let st2 := if is_rate_limit_error e then
                { st1 with sourceCooldownUntil :=
                    (sid, now + source_cooldown_seconds cfg sid)
                      :: st1.sourceCooldownUntil }
              else st1
            unified_loop net query count now cfg rest
              (errors ++ [recOf sid e]) st2

/-- Embeds `search_with_unified_failover` (lines 489-519). -/
def search_with_unified_failover (net : Net) (query : String) (count now : Int)
    (st : GlobalState) : FailoverOut :=
  let cfg := (load_search_adapters st.file).1
  let st1 := { st with file := (load_search_adapters st.file).2 }
  let chain := source_chain cfg
  if chain = [] then
    ⟨.error "no primary/fallback source configured", st1, []⟩
  else unified_loop net query count now cfg chain [] st1

/-! ## Specification-side definitions -/

/-- Duplicate removal preserving the first occurrence. -/
def dedupKeepFirst (l : List String) : List String :=
  l.foldl (fun acc x => if x ∈ acc then acc else acc ++ [x]) []

/-- The chain-resolution algorithm as the specification words it: start
from `primarySource` (derived from the legacy `primary`/`active`, prefixed
with `"adapter:"`, when it is empty), append `fallbackSources` (derived
from the legacy `fallbacks`, prefixed, when that list is empty), drop
empty entries, and remove duplicates preserving the first occurrence.
Ids are compared in their normalized (stripped, lower-cased) form. -/
def resolveSourceChain_spec (cfg : RouterConfig) : List String :=
  let primary := pyNorm cfg.primarySource
  let primary := if primary = "" then
      (let legacy := pyNorm (if cfg.primary ≠ "" then cfg.primary else cfg.active)
       if legacy ≠ "" then "adapter:" ++ legacy else "")
    else primary
  let fallbacks := if cfg.fallbackSources ≠ [] then cfg.fallbackSources
    else (cfg.fallbacks.filter (fun x => pyStrip x != "")).map
           (fun x => "adapter:" ++ pyNorm x)
  dedupKeepFirst (((if primary = "" then [] else [primary])
    ++ fallbacks.map pyNorm).filter (fun s => s != ""))

/-- The documented clamps of the data model: `topK` to [1,20] and (when
present) `cooldownSeconds` to [5,3600]. -/
def clampProvider (p : AdapterConfig) : AdapterConfig :=
  { p with topK := max 1 (min 20 p.topK),
           cooldownSeconds := p.cooldownSeconds.map (fun c => max 5 (min 3600 c)) }

/-- A `RouterConfig` after re-applying the documented clamps. -/
def applyDocumentedClamps (cfg : RouterConfig) : RouterConfig :=
  { cfg with providers :=
      { zhipu := clampProvider cfg.providers.zhipu
        serper := clampProvider cfg.providers.serper
        tavily := clampProvider cfg.providers.tavily } }

/-! ## Concrete fixtures -/

/-- An enabled provider entry with the given key and the default base URL. -/
def enabledKeyed (pid key : String) : AdapterConfig :=
  { enabled := true, apiKey := key, baseUrl := defaultBaseUrl pid,
    model := "", topK := 5, cooldownSeconds := none }

/-- An oracle with one fixed normalized response per third-party adapter
(official sources always fail; no Brave key). -/
def oneShotNet (serperResp tavilyResp : Except String (List SearchResult)) : Net :=
  { provider := fun pid _q _k =>
      if pid = "serper" then serperResp
      else if pid = "tavily" then tavilyResp
      else .error "x"
    official := fun _ _ => .error "official unavailable"
    braveKey := "" }

def c1Result : SearchResult := ⟨"a", "https://a.com", "sa", "serper"⟩

/-- Unified primary `adapter:serper`; serper disabled but keyed. -/
def c1CfgDisabled : RouterConfig :=
  { default_config with
    primarySource := "adapter:serper",
    providers := { default_config.providers with
                   serper := { (enabledKeyed "serper" "k") with enabled := false } } }

/-- Unified chain `adapter:serper, adapter:tavily`; serper enabled but
with an empty key, tavily enabled and keyed. -/
def c1CfgMissingKey : RouterConfig :=
  { default_config with
    primarySource := "adapter:serper",
    fallbackSources := ["adapter:tavily"],
    providers := { default_config.providers with
                   serper := { (enabledKeyed "serper" "x") with apiKey := "" },
                   tavily := enabledKeyed "tavily" "tk" } }

/-- A config whose serper entry carries `cooldownSeconds = 120`
(as `update_provider` would store after clamping). -/
def c2Cfg : RouterConfig :=
  { default_config with
    primary := "serper", active := "serper",
    providers := { default_config.providers with
                   serper := { (enabledKeyed "serper" "sk-1") with
                               cooldownSeconds := some 120 } } }

def c4Result : SearchResult := ⟨"ok", "https://ok.com", "s", "tavily"⟩

/-- Legacy chain `serper, tavily`, both enabled and keyed; serper's stored
`cooldownSeconds` is 3600. -/
def c4Cfg : RouterConfig :=
  { default_config with
    primary := "serper", active := "serper", fallbacks := ["tavily"],
    providers := { default_config.providers with
                   serper := { (enabledKeyed "serper" "a") with
                               cooldownSeconds := some 3600 },
                   tavily := enabledKeyed "tavily" "b" } }

def c4Net : Net := oneShotNet (.error "429 Too Many Requests") (.ok [c4Result])

/-- Legacy chain `serper, tavily`, both enabled and keyed. -/
def c6Cfg : RouterConfig :=
  { default_config with
    primary := "serper", fallbacks := ["tavily"],
    providers := { default_config.providers with
                   serper := enabledKeyed "serper" "a",
                   tavily := enabledKeyed "tavily" "b" } }

/-- Unified chain built from the same config (both candidates fail). -/
def c6CfgUnified : RouterConfig :=
  { c6Cfg with primarySource := "adapter:serper",
               fallbackSources := ["adapter:tavily"] }

def c6Net : Net := oneShotNet (.error "429 rate limit") (.error "429 rate limit")

/-- A stored config carrying a unified fallback chain unrelated to the
legacy `fallbacks` field. -/
def c10Cfg : RouterConfig :=
  { default_config with fallbackSources := ["official:brave"] }

/-- Fixture `c2Cfg` with the serper `cooldownSeconds` key removed. -/
def c2CfgNoCooldown : RouterConfig :=
  { c2Cfg with
    providers := { c2Cfg.providers with
                   serper := { c2Cfg.providers.serper with cooldownSeconds := none } } }

/-! ## Claim theorems -/

/-- C1, counterexample.  With `adapter:serper` as the only unified
candidate, serper disabled but keyed, `search_with_unified_failover` makes
the network attempt and returns serper's results instead of recording
`"adapter:serper:disabled"` and moving on; and with serper's key empty the
walk records `"adapter:serper:missing api key"`, not `"…:missing-key"`
(the aggregate message below contains no `"missing-key"` substring). -/
theorem c1_counterexample :
    (search_with_unified_failover (oneShotNet (.ok [c1Result]) (.error "x")) "q" 3 0
        ⟨save_search_adapters c1CfgDisabled, [], []⟩).res = .ok [c1Result]
    ∧ (search_with_unified_failover (oneShotNet (.error "boom") (.error "boom")) "q" 3 0
        ⟨save_search_adapters c1CfgMissingKey, [], []⟩).res
      = .error "all sources failed: adapter:serper:missing api key | adapter:tavily:boom"
    ∧ strContains "all sources failed: adapter:serper:missing api key | adapter:tavily:boom"
        "missing-key" = false
    ∧ strContains "all sources failed: adapter:serper:missing api key | adapter:tavily:boom"
        "disabled" = false :=
  ⟨rfl, rfl, by decide, by decide⟩

/-- C1, amended.  `search_with_unified_failover` performs no enabled or
apiKey pre-check of its own: an adapter-backed candidate that is not on
cooldown is always handed to `search_with_provider`.  A candidate with an
empty `apiKey` fails there before any network call — the oracle's serper
response is universally quantified and unused — and is recorded as
`"<sid>:missing api key"`, after which the walk continues; a disabled
candidate with a non-empty key is attempted normally and its results are
returned on success. -/
theorem c1_unified_no_precheck (serperResp : Except String (List SearchResult))
    (e : String) (rs : List SearchResult) :
    (search_with_unified_failover (oneShotNet serperResp (.error e)) "q" 3 0
        ⟨save_search_adapters c1CfgMissingKey, [], []⟩).res
      = .error ("all sources failed: adapter:serper:missing api key | adapter:tavily:" ++ e)
    ∧ (search_with_unified_failover (oneShotNet (.ok rs) (.error "x")) "q" 3 0
        ⟨save_search_adapters c1CfgDisabled, [], []⟩).res = .ok rs :=
  ⟨rfl, rfl⟩

/-- C2.  The save-then-load round trip drops a stored per-provider
`cooldownSeconds` (the provider merge of `load_search_adapters` copies
every field except it), so the loaded config differs from the input even
after re-applying the documented clamps; every other field of this input
survives (last conjunct). -/
theorem c2_load_drops_cooldown_seconds :
    applyDocumentedClamps c2Cfg = c2Cfg
    ∧ c2Cfg.providers.serper.cooldownSeconds = some 120
    ∧ (load_search_adapters (save_search_adapters c2Cfg)).1.providers.serper.cooldownSeconds
        = none
    ∧ (load_search_adapters (save_search_adapters c2Cfg)).1 ≠ applyDocumentedClamps c2Cfg
    ∧ (load_search_adapters (save_search_adapters c2Cfg)).1
        = applyDocumentedClamps c2CfgNoCooldown := by
  refine ⟨by decide, by decide, by decide, by decide, by decide⟩

/-- C4.  Failover itself behaves as claimed — serper's
`"429 Too Many Requests"` is classified as a rate limit and tavily's
single result is returned — but the cooldown is marked for `now + 60`,
not `now + 3600`: serper's stored `cooldownSeconds = 3600` was dropped
when the executor loaded the config, so 100 seconds after the failure
(well inside the configured 3600) the cooldown check already fails. -/
theorem c4_cooldown_uses_default_not_stored :
    (search_with_failover c4Net "OpenClaw" 3 1000
        ⟨save_search_adapters c4Cfg, [], []⟩).res = .ok [c4Result]
    ∧ (search_with_failover c4Net "OpenClaw" 3 1000
        ⟨save_search_adapters c4Cfg, [], []⟩).st.cooldownUntil = [("serper", 1060)]
    ∧ lookupD (search_with_failover c4Net "OpenClaw" 3 1000
        ⟨save_search_adapters c4Cfg, [], []⟩).st.cooldownUntil "serper" = 1060
    ∧ (1100 : Int) < 1000 + 3600
    ∧ ¬ lookupD (search_with_failover c4Net "OpenClaw" 3 1000
        ⟨save_search_adapters c4Cfg, [], []⟩).st.cooldownUntil "serper" > 1100 :=
  ⟨rfl, by decide, by decide, by decide, by decide⟩

/-- C8.  A file that is unparsable (`"not json"`), or parses to a
non-object, is handled exactly like a missing file: the defaults are
rebuilt, persisted, and returned — no error escapes — and the defaults
hold all three known adapter ids with `enabled = false`. -/
theorem c8_corrupt_file_recovers_defaults :
    load_search_adapters (FileContent.notJson "not json")
      = (default_config, save_search_adapters default_config)
    ∧ load_search_adapters FileContent.absent
      = (default_config, save_search_adapters default_config)
    ∧ load_search_adapters (FileContent.json (JVal.str "not json"))
      = (default_config, save_search_adapters default_config)
    ∧ default_config.providers.zhipu.enabled = false
    ∧ default_config.providers.serper.enabled = false
    ∧ default_config.providers.tavily.enabled = false :=
  ⟨rfl, rfl, rfl, rfl, rfl, rfl⟩

theorem strStartsWith_adapter_ne_empty {x : String}
    (h : strStartsWith x "adapter:" = true) : x ≠ "" := by
  intro hx
  rw [hx] at h
  exact absurd h (by decide)

theorem official_not_adapter {x : String}
    (h : x ∈ OFFICIAL_SEARCH_SOURCES) : strStartsWith x "adapter:" = false := by
  simp only [OFFICIAL_SEARCH_SOURCES, List.mem_cons, List.mem_nil_iff,
    or_false] at h
  rcases h with h | h | h | h | h <;> rw [h] <;> decide

theorem mem_adapter_ids_ne_empty {x : String}
    (h : x ∈ ADAPTER_SPECS_ids) : x ≠ "" := by
  intro hx
  rw [hx] at h
  exact absurd h (by decide)

/-- C3, counterexample.  `set_primary_source "adapter:bogus"` succeeds and
the unknown id is persisted: the reloaded config carries
`primarySource = "adapter:bogus"` and even the legacy `primary` mirror
`"bogus"`, although `bogus` is no known adapter; `set_fallback_sources`
stores it too. -/
theorem c3_counterexample :
    (set_primary_source "adapter:bogus" (save_search_adapters default_config)).1 = true
    ∧ (load_search_adapters
        (set_primary_source "adapter:bogus"
          (save_search_adapters default_config)).2).1.primarySource = "adapter:bogus"
    ∧ (load_search_adapters
        (set_primary_source "adapter:bogus"
          (save_search_adapters default_config)).2).1.primary = "bogus"
    ∧ "bogus" ∉ ADAPTER_SPECS_ids
    ∧ (set_fallback_sources ["adapter:bogus"] (save_search_adapters default_config)).1 = true
    ∧ (load_search_adapters
        (set_fallback_sources ["adapter:bogus"]
          (save_search_adapters default_config)).2).1.fallbackSources
      = ["adapter:bogus"] := by
  refine ⟨by decide, by decide, by decide, by decide, by decide, by decide⟩

/-- C3, amended.  The source setters validate only the shape of the id:
a string that is neither a known official source nor `"adapter:"`-prefixed
is rejected with the file untouched, but *every* `"adapter:"`-prefixed
string — known adapter id or not — is accepted: `set_primary_source`
stores it (mirroring the suffix into `primary`/`active`) and
`set_fallback_sources` keeps it. -/
theorem c3_amended (s : String) (file : FileContent) :
    (pyNorm s ≠ "" → pyNorm s ∉ OFFICIAL_SEARCH_SOURCES →
      strStartsWith (pyNorm s) "adapter:" = false →
      set_primary_source s file = (false, file))
    ∧ (strStartsWith (pyNorm s) "adapter:" = true →
      set_primary_source s file
        = (true, save_search_adapters
            { (load_search_adapters file).1 with
              primarySource := pyNorm s, activeSource := pyNorm s,
              primary := splitColonTail (pyNorm s),
              active := splitColonTail (pyNorm s) }))
    ∧ (strStartsWith (pyNorm s) "adapter:" = true →
      set_fallback_sources [s] file
        = (true, save_search_adapters
            { (load_search_adapters file).1 with fallbackSources := [pyNorm s] })) := by
  refine ⟨?_, ?_, ?_⟩
  · intro h1 h2 h3
    simp [set_primary_source, h1, h2, h3]
  · intro h
    simp [set_primary_source, h]
  · intro h
    have hne : pyNorm s ≠ "" := strStartsWith_adapter_ne_empty h
    simp [set_fallback_sources, normalize_source_ids, h, hne]

/-- C3, witness for the amended theorem at `s = "adapter:bogus"`. -/
theorem c3_amended_witness :
    set_primary_source "adapter:bogus" FileContent.absent
      = (true, save_search_adapters
          { (load_search_adapters FileContent.absent).1 with
            primarySource := pyNorm "adapter:bogus",
            activeSource := pyNorm "adapter:bogus",
            primary := splitColonTail (pyNorm "adapter:bogus"),
            active := splitColonTail (pyNorm "adapter:bogus") }) :=
  (c3_amended "adapter:bogus" FileContent.absent).2.1 (by decide)

/-- C5, counterexample.  The legacy/unified sync does not cover clearing:
after `set_primary_provider "serper"`, calling `set_primary_source ""`
succeeds and clears the unified fields but leaves `primary = "serper"`;
symmetrically, after `set_primary_source "adapter:serper"`, calling
`set_primary_provider ""` clears the legacy fields but leaves
`primarySource = "adapter:serper"`. -/
theorem c5_counterexample :
    (set_primary_source ""
        (set_primary_provider "serper" (save_search_adapters default_config)).2).1 = true
    ∧ (load_search_adapters
        (set_primary_source ""
          (set_primary_provider "serper"
            (save_search_adapters default_config)).2).2).1.primarySource = ""
    ∧ (load_search_adapters
        (set_primary_source ""
          (set_primary_provider "serper"
            (save_search_adapters default_config)).2).2).1.primary = "serper"
    ∧ (set_primary_provider ""
        (set_primary_source "adapter:serper" (save_search_adapters default_config)).2).1 = true
    ∧ (load_search_adapters
        (set_primary_provider ""
          (set_primary_source "adapter:serper"
            (save_search_adapters default_config)).2).2).1.primary = ""
    ∧ (load_search_adapters
        (set_primary_provider ""
          (set_primary_source "adapter:serper"
            (save_search_adapters default_config)).2).2).1.primarySource
      = "adapter:serper" := by
  refine ⟨by decide, by decide, by decide, by decide, by decide, by decide⟩

/-- C5, amended.  The two primary setters mirror into the other naming
scheme only for non-empty adapter values: `set_primary_provider` with a
known id updates all four fields, but with the empty string it clears only
`primary`/`active`; `set_primary_source` with an `"adapter:"`-prefixed id
updates all four fields, but with an official id or the empty string it
touches only `primarySource`/`activeSource`. -/
theorem c5_sync_one_way (pid s : String) (file : FileContent) :
    (pyNorm pid ∈ ADAPTER_SPECS_ids →
      set_primary_provider pid file
        = (true, save_search_adapters
            { (load_search_adapters file).1 with
              primary := pyNorm pid, active := pyNorm pid,
              primarySource := "adapter:" ++ pyNorm pid,
              activeSource := "adapter:" ++ pyNorm pid }))
    ∧ (pyNorm pid = "" →
      set_primary_provider pid file
        = (true, save_search_adapters
            { (load_search_adapters file).1 with primary := "", active := "" }))
    ∧ (strStartsWith (pyNorm s) "adapter:" = true →
      set_primary_source s file
        = (true, save_search_adapters
            { (load_search_adapters file).1 with
              primarySource := pyNorm s, activeSource := pyNorm s,
              primary := splitColonTail (pyNorm s),
              active := splitColonTail (pyNorm s) }))
    ∧ (pyNorm s ∈ OFFICIAL_SEARCH_SOURCES →
      set_primary_source s file
        = (true, save_search_adapters
            { (load_search_adapters file).1 with
              primarySource := pyNorm s, activeSource := pyNorm s }))
    ∧ (pyNorm s = "" →
      set_primary_source s file
        = (true, save_search_adapters
            { (load_search_adapters file).1 with
              primarySource := "", activeSource := "" })) := by
  refine ⟨?_, ?_, ?_, ?_, ?_⟩
  · intro h
    have hne : pyNorm pid ≠ "" := mem_adapter_ids_ne_empty h
    simp [set_primary_provider, h, hne]
  · intro h
    simp [set_primary_provider, h]
  · intro h
    simp [set_primary_source, h]
  · intro h
    have hsw : strStartsWith (pyNorm s) "adapter:" = false := official_not_adapter h
    simp [set_primary_source, h, hsw]
  · intro h
    have hsw : strStartsWith ("" : String) "adapter:" = false := by decide
    simp [set_primary_source, h, hsw]

/-- C5, witness for the amended theorem at `pid = "serper"`. -/
theorem c5_sync_one_way_witness :
    set_primary_provider "serper" FileContent.absent
      = (true, save_search_adapters
          { (load_search_adapters FileContent.absent).1 with
            primary := pyNorm "serper", active := pyNorm "serper",
            primarySource := "adapter:" ++ pyNorm "serper",
            activeSource := "adapter:" ++ pyNorm "serper" }) :=
  (c5_sync_one_way "serper" "" FileContent.absent).1 (by decide)

/-- C10.  `set_fallback_providers` always overwrites `fallbacks` with the
normalization of its input to known adapter ids, and mirrors it into
`fallbackSources` only when that normalization is non-empty; when it is
empty (here: input `["bogus"]`) the stored `fallbackSources`
(`["official:brave"]`) survives unchanged while `fallbacks` becomes `[]`. -/
theorem c10_fallback_mirror_only_nonempty (ids : List String) (file : FileContent) :
    set_fallback_providers ids file
      = (true, save_search_adapters
          (if normalize_provider_ids ids = []
           then { (load_search_adapters file).1 with fallbacks := [] }
           else { (load_search_adapters file).1 with
                  fallbacks := normalize_provider_ids ids,
                  fallbackSources := (normalize_provider_ids ids).map
                    (fun x => "adapter:" ++ x) }))
    ∧ (load_search_adapters
        (set_fallback_providers ["bogus"]
          (save_search_adapters c10Cfg)).2).1.fallbackSources = ["official:brave"]
    ∧ (load_search_adapters
        (set_fallback_providers ["bogus"]
          (save_search_adapters c10Cfg)).2).1.fallbacks = []
    ∧ (load_search_adapters
        (set_fallback_providers ["tavily"]
          (save_search_adapters c10Cfg)).2).1.fallbackSources = ["adapter:tavily"]
    ∧ (load_search_adapters
        (set_fallback_providers ["tavily"]
          (save_search_adapters c10Cfg)).2).1.fallbacks = ["tavily"] := by
  refine ⟨?_, by decide, by decide, by decide, by decide⟩
  by_cases h : normalize_provider_ids ids = []
  · simp [set_fallback_providers, h]
  · simp [set_fallback_providers, h]

theorem foldl_norm_dedup (fbs : List String) :
    ∀ acc : List String,
      fbs.foldl (fun chain sid =>
        let norm := pyNorm sid
        if norm ≠ "" ∧ norm ∉ chain then chain ++ [norm] else chain) acc
      = ((fbs.map pyNorm).filter (fun s => s != "")).foldl
          (fun acc x => if x ∈ acc then acc else acc ++ [x]) acc := by
  induction fbs with
  | nil => intro acc; rfl
  | cons sid rest ih =>
      intro acc
      by_cases h : pyNorm sid = ""
      · simp [h, ih]
      · by_cases h2 : pyNorm sid ∈ acc
        · simp [h, h2, ih]
        · simp [h, h2, ih]

theorem chain_build_eq (primary : String) (fbs : List String) :
    fbs.foldl (fun chain sid =>
        let norm := pyNorm sid
        if norm ≠ "" ∧ norm ∉ chain then chain ++ [norm] else chain)
      (if primary ≠ "" then [primary] else [])
    = dedupKeepFirst (((if primary = "" then [] else [primary])
        ++ fbs.map pyNorm).filter (fun s => s != "")) := by
  rw [foldl_norm_dedup]
  by_cases hp : primary = ""
  · simp [hp, dedupKeepFirst]
  · simp [hp, dedupKeepFirst, List.filter_append, List.foldl_append]

/-- C7.  `source_chain` is a pure function of the loaded config and equals
the specification's description for every config: primary from
`primarySource`, else from the legacy `primary`/`active` with the
`"adapter:"` prefix; then `fallbackSources`, else the prefixed legacy
`fallbacks`; empty entries dropped and duplicates removed keeping the
first occurrence.  With only legacy `primary = "serper"`,
`fallbacks = ["tavily"]`, the chain is
`["adapter:serper", "adapter:tavily"]`. -/
theorem c7_source_chain_matches_spec (cfg : RouterConfig) :
    source_chain cfg = resolveSourceChain_spec cfg
    ∧ source_chain { default_config with primary := "serper", fallbacks := ["tavily"] }
      = ["adapter:serper", "adapter:tavily"]
    ∧ resolveSourceChain_spec
        { default_config with primary := "serper", fallbacks := ["tavily"] }
      = ["adapter:serper", "adapter:tavily"] := by
  refine ⟨?_, by decide, by decide⟩
  simp only [source_chain, resolveSourceChain_spec]
  exact chain_build_eq _ _

theorem exhaust_extend {pre : String} {loopAll loopTail : FailoverOut}
    {pid reason : String} {rest acc : List String}
    (heq : loopAll = loopTail)
    (ha : loopTail.res = .error (pre ++ strJoin " | " loopTail.records))
    (hb : loopTail.records.length = (acc ++ [recOf pid reason]).length + rest.length)
    (hc : ∀ r ∈ loopTail.records,
        r ∈ acc ++ [recOf pid reason] ∨ ∃ p ∈ rest, ∃ rsn, r = recOf p rsn) :
    loopAll.res = .error (pre ++ strJoin " | " loopAll.records)
    ∧ loopAll.records.length = acc.length + (pid :: rest).length
    ∧ ∀ r ∈ loopAll.records,
        r ∈ acc ∨ ∃ p ∈ pid :: rest, ∃ rsn, r = recOf p rsn := by
  subst heq
  refine ⟨ha, ?_, ?_⟩
  · simp only [List.length_append, List.length_cons, List.length_nil] at hb ⊢
    omega
  · intro r hr
    rcases hc r hr with hmem | ⟨p, hp, rsn, hrsn⟩
    · rcases List.mem_append.1 hmem with hm | hm
      · exact Or.inl hm
      · exact Or.inr ⟨pid, List.mem_cons_self _ _, reason, by simpa using hm⟩
    · exact Or.inr ⟨p, List.mem_cons_of_mem _ hp, rsn, hrsn⟩

theorem legacy_loop_exhaust (net : Net) (query : String) (count now : Int)
    (cfg : RouterConfig) :
    ∀ (chain acc : List String) (st : GlobalState),
      (∀ rs, (legacy_loop net query count now cfg chain acc st).res ≠ .ok rs) →
      (legacy_loop net query count now cfg chain acc st).res
        = .error ("all providers failed: "
            ++ strJoin " | " (legacy_loop net query count now cfg chain acc st).records)
      ∧ (legacy_loop net query count now cfg chain acc st).records.length
          = acc.length + chain.length
      ∧ ∀ r ∈ (legacy_loop net query count now cfg chain acc st).records,
          r ∈ acc ∨ ∃ pid ∈ chain, ∃ reason, r = recOf pid reason := by
  intro chain
  induction chain with
  | nil =>
      intro acc st _h
      refine ⟨rfl, by simp [legacy_loop], ?_⟩
      intro r hr
      exact Or.inl (by simpa [legacy_loop] using hr)
  | cons pid rest ih =>
      intro acc st h
      by_cases h1 : (cfg.providers.get pid).enabled
      case neg =>
        have e1 : legacy_loop net query count now cfg (pid :: rest) acc st
            = legacy_loop net query count now cfg rest
                (acc ++ [recOf pid "disabled"]) st := by
          simp [legacy_loop, h1]
        rw [e1] at h
        obtain ⟨ha, hb, hc⟩ := ih (acc ++ [recOf pid "disabled"]) st h
        exact exhaust_extend e1 ha hb hc
      case pos =>
        by_cases h2 : pyStrip (cfg.providers.get pid).apiKey = ""
        case pos =>
          have e1 : legacy_loop net query count now cfg (pid :: rest) acc st
              = legacy_loop net query count now cfg rest
                  (acc ++ [recOf pid "missing-key"]) st := by
            simp [legacy_loop, h1, h2]
          rw [e1] at h
          obtain ⟨ha, hb, hc⟩ := ih (acc ++ [recOf pid "missing-key"]) st h
          exact exhaust_extend e1 ha hb hc
        case neg =>
          by_cases h3 : lookupD st.cooldownUntil pid > now
          case pos =>
            have e1 : legacy_loop net query count now cfg (pid :: rest) acc st
                = legacy_loop net query count now cfg rest
                    (acc ++ [recOf pid "cooldown"]) st := by
              simp [legacy_loop, h1, h2, h3]
            rw [e1] at h
            obtain ⟨ha, hb, hc⟩ := ih (acc ++ [recOf pid "cooldown"]) st h
            exact exhaust_extend e1 ha hb hc
          case neg =>
            rcases hsp : search_with_provider net pid query count st.file
              with ⟨res, file1⟩
            cases res with
            | ok results =>
                exact absurd (by simp [legacy_loop, h1, h2, h3, hsp]) (h results)
            | error e =>
                have e1 : legacy_loop net query count now cfg (pid :: rest) acc st
                    = legacy_loop net query count now cfg rest
                        (acc ++ [recOf pid e])
                        (if is_rate_limit_error e then
                          { file := file1,
                            cooldownUntil :=
                              (pid, now + provider_cooldown_seconds
                                (cfg.providers.get pid)) :: st.cooldownUntil,
                            sourceCooldownUntil := st.sourceCooldownUntil }
                         else { file := file1,
                                cooldownUntil := st.cooldownUntil,
                                sourceCooldownUntil := st.sourceCooldownUntil }) := by
                  simp [legacy_loop, h1, h2, h3, hsp]
                rw [e1] at h
                obtain ⟨ha, hb, hc⟩ := ih (acc ++ [recOf pid e]) _ h
                exact exhaust_extend e1 ha hb hc

theorem unified_loop_exhaust (net : Net) (query : String) (count now : Int)
    (cfg : RouterConfig) :
    ∀ (chain acc : List String) (st : GlobalState),
      (∀ rs, (unified_loop net query count now cfg chain acc st).res ≠ .ok rs) →
      (unified_loop net query count now cfg chain acc st).res
        = .error ("all sources failed: "
            ++ strJoin " | " (unified_loop net query count now cfg chain acc st).records)
      ∧ (unified_loop net query count now cfg chain acc st).records.length
          = acc.length + chain.length
      ∧ ∀ r ∈ (unified_loop net query count now cfg chain acc st).records,
          r ∈ acc ∨ ∃ sid ∈ chain, ∃ reason, r = recOf sid reason := by
  intro chain
  induction chain with
  | nil =>
      intro acc st _h
      refine ⟨rfl, by simp [unified_loop], ?_⟩
      intro r hr
      exact Or.inl (by simpa [unified_loop] using hr)
  | cons sid rest ih =>
      intro acc st h
      by_cases h1 : lookupD st.sourceCooldownUntil sid > now
      case pos =>
        have e1 : unified_loop net query count now cfg (sid :: rest) acc st
            = unified_loop net query count now cfg rest
                (acc ++ [recOf sid "cooldown"]) st := by
          simp [unified_loop, h1]
        rw [e1] at h
        obtain ⟨ha, hb, hc⟩ := ih (acc ++ [recOf sid "cooldown"]) st h
        exact exhaust_extend e1 ha hb hc
      case neg =>
        rcases hA : unified_attempt net query count cfg sid st with ⟨res, st1⟩
        cases res with
        | ok results =>
            exact absurd (by simp [unified_loop, h1, hA]) (h results)
        | error e =>
            have e1 : unified_loop net query count now cfg (sid :: rest) acc st
                = unified_loop net query count now cfg rest
                    (acc ++ [recOf sid e])
                    (if is_rate_limit_error e then
                      { st1 with sourceCooldownUntil :=
                          (sid, now + source_cooldown_seconds cfg sid)
                            :: st1.sourceCooldownUntil }
                     else st1) := by
              simp [unified_loop, h1, hA]
            rw [e1] at h
            obtain ⟨ha, hb, hc⟩ := ih (acc ++ [recOf sid e]) _ h
            exact exhaust_extend e1 ha hb hc

/-- C6, counterexample.  When both chain candidates fail with rate-limit
errors, the raised message is *not* the bare `" | "`-joined record list:
it is that list prefixed by `"all providers failed: "`. -/
theorem c6_counterexample :
    (search_with_failover c6Net "q" 3 0
        ⟨save_search_adapters c6Cfg, [], []⟩).res
      = .error "all providers failed: serper:429 rate limit | tavily:429 rate limit"
    ∧ (search_with_failover c6Net "q" 3 0
        ⟨save_search_adapters c6Cfg, [], []⟩).records
      = ["serper:429 rate limit", "tavily:429 rate limit"]
    ∧ strJoin " | " ["serper:429 rate limit", "tavily:429 rate limit"]
      = "serper:429 rate limit | tavily:429 rate limit"
    ∧ "all providers failed: serper:429 rate limit | tavily:429 rate limit"
      ≠ "serper:429 rate limit | tavily:429 rate limit" :=
  ⟨rfl, by decide, by decide, by decide⟩

/-- C6, amended.  Whenever a non-empty chain is exhausted without a
success, either executor raises an aggregate error whose message is the
`" | "`-joined list of the per-candidate records, prefixed with
`"all providers failed: "` (legacy) or `"all sources failed: "` (unified);
the walk collects exactly one record per candidate, each of the form
`"<candidate>:<reason>"`.  In the concrete both-rate-limited run the
message contains both `"serper:"` and `"tavily:"`. -/
theorem c6_aggregate_error_message (net : Net) (q : String) (c now : Int)
    (st : GlobalState) :
    ((∀ rs, (search_with_failover net q c now st).res ≠ .ok rs) →
      provider_chain (load_search_adapters st.file).1 ≠ [] →
      (search_with_failover net q c now st).res
        = .error ("all providers failed: "
            ++ strJoin " | " (search_with_failover net q c now st).records)
      ∧ (search_with_failover net q c now st).records.length
          = (provider_chain (load_search_adapters st.file).1).length
      ∧ ∀ r ∈ (search_with_failover net q c now st).records,
          ∃ pid ∈ provider_chain (load_search_adapters st.file).1,
            ∃ reason, r = recOf pid reason)
    ∧ ((∀ rs, (search_with_unified_failover net q c now st).res ≠ .ok rs) →
      source_chain (load_search_adapters st.file).1 ≠ [] →
      (search_with_unified_failover net q c now st).res
        = .error ("all sources failed: "
            ++ strJoin " | " (search_with_unified_failover net q c now st).records)
      ∧ (search_with_unified_failover net q c now st).records.length
          = (source_chain (load_search_adapters st.file).1).length
      ∧ ∀ r ∈ (search_with_unified_failover net q c now st).records,
          ∃ sid ∈ source_chain (load_search_adapters st.file).1,
            ∃ reason, r = recOf sid reason)
    ∧ strContains
        "all providers failed: serper:429 rate limit | tavily:429 rate limit"
        "serper:" = true
    ∧ strContains
        "all providers failed: serper:429 rate limit | tavily:429 rate limit"
        "tavily:" = true
    ∧ (search_with_unified_failover c6Net "q" 3 0
        ⟨save_search_adapters c6CfgUnified, [], []⟩).res
      = .error
        "all sources failed: adapter:serper:429 rate limit | adapter:tavily:429 rate limit"
    ∧ strContains
        "all sources failed: adapter:serper:429 rate limit | adapter:tavily:429 rate limit"
        "serper:" = true
    ∧ strContains
        "all sources failed: adapter:serper:429 rate limit | adapter:tavily:429 rate limit"
        "tavily:" = true := by
  refine ⟨?_, ?_, by decide, by decide, rfl, by decide, by decide⟩
  · intro h hchain
    rw [search_with_failover] at h ⊢
    simp only [hchain, if_false, ite_false] at h ⊢
    obtain ⟨ha, hb, hc⟩ :=
      legacy_loop_exhaust net q c now (load_search_adapters st.file).1
        (provider_chain (load_search_adapters st.file).1) [] _ h
    refine ⟨ha, by simpa using hb, ?_⟩
    intro r hr
    rcases hc r hr with hm | hm
    · exact absurd hm (List.not_mem_nil r)
    · exact hm
  · intro h hchain
    rw [search_with_unified_failover] at h ⊢
    simp only [hchain, if_false, ite_false] at h ⊢
    obtain ⟨ha, hb, hc⟩ :=
      unified_loop_exhaust net q c now (load_search_adapters st.file).1
        (source_chain (load_search_adapters st.file).1) [] _ h
    refine ⟨ha, by simpa using hb, ?_⟩
    intro r hr
    rcases hc r hr with hm | hm
    · exact absurd hm (List.not_mem_nil r)
    · exact hm

/-- C6, witness: the amended theorem applied to the concrete
both-rate-limited legacy run. -/
theorem c6_aggregate_error_message_witness :
    (search_with_failover c6Net "q" 3 0 ⟨save_search_adapters c6Cfg, [], []⟩).res
      = .error ("all providers failed: "
          ++ strJoin " | " (search_with_failover c6Net "q" 3 0
                ⟨save_search_adapters c6Cfg, [], []⟩).records) :=
  ((c6_aggregate_error_message c6Net "q" 3 0
      ⟨save_search_adapters c6Cfg, [], []⟩).1
    (fun _rs hx => Except.noConfusion hx) (by decide)).1

theorem legacy_loop_state_frame (net : Net) (q : String) (c now : Int)
    (cfg : RouterConfig) :
    ∀ (chain acc : List String) (f : FileContent) (cd m m' : List (String × Int)),
      (legacy_loop net q c now cfg chain acc ⟨f, cd, m⟩).res
        = (legacy_loop net q c now cfg chain acc ⟨f, cd, m'⟩).res
      ∧ (legacy_loop net q c now cfg chain acc ⟨f, cd, m⟩).records
        = (legacy_loop net q c now cfg chain acc ⟨f, cd, m'⟩).records
      ∧ (legacy_loop net q c now cfg chain acc ⟨f, cd, m⟩).st.file
        = (legacy_loop net q c now cfg chain acc ⟨f, cd, m'⟩).st.file
      ∧ (legacy_loop net q c now cfg chain acc ⟨f, cd, m⟩).st.cooldownUntil
        = (legacy_loop net q c now cfg chain acc ⟨f, cd, m'⟩).st.cooldownUntil
      ∧ (legacy_loop net q c now cfg chain acc ⟨f, cd, m⟩).st.sourceCooldownUntil
        = m := by
  intro chain
  induction chain with
  | nil => intro acc f cd m m'; exact ⟨rfl, rfl, rfl, rfl, rfl⟩
  | cons pid rest ih =>
      intro acc f cd m m'
      by_cases h1 : (cfg.providers.get pid).enabled
      case neg =>
        simpa [legacy_loop, h1] using ih (acc ++ [recOf pid "disabled"]) f cd m m'
      case pos =>
        by_cases h2 : pyStrip (cfg.providers.get pid).apiKey = ""
        case pos =>
          simpa [legacy_loop, h1, h2] using
            ih (acc ++ [recOf pid "missing-key"]) f cd m m'
        case neg =>
          by_cases h3 : lookupD cd pid > now
          case pos =>
            simpa [legacy_loop, h1, h2, h3] using
              ih (acc ++ [recOf pid "cooldown"]) f cd m m'
          case neg =>
            rcases hsp : search_with_provider net pid q c f with ⟨res, f1⟩
            cases res with
            | ok results => simp [legacy_loop, h1, h2, h3, hsp]
            | error e =>
                by_cases hrl : is_rate_limit_error e = true
                case pos =>
                  simpa [legacy_loop, h1, h2, h3, hsp, hrl] using
                    ih (acc ++ [recOf pid e]) f1
                      ((pid, now + provider_cooldown_seconds
                        (cfg.providers.get pid)) :: cd) m m'
                case neg =>
                  simpa [legacy_loop, h1, h2, h3, hsp, hrl] using
                    ih (acc ++ [recOf pid e]) f1 cd m m'

theorem unified_attempt_components (net : Net) (q : String) (c : Int)
    (cfg : RouterConfig) (sid : String) (f : FileContent)
    (cd scd cd' scd' : List (String × Int)) :
    (unified_attempt net q c cfg sid ⟨f, cd, scd⟩).1
      = (unified_attempt net q c cfg sid ⟨f, cd', scd'⟩).1
    ∧ (unified_attempt net q c cfg sid ⟨f, cd, scd⟩).2.file
      = (unified_attempt net q c cfg sid ⟨f, cd', scd'⟩).2.file
    ∧ (unified_attempt net q c cfg sid ⟨f, cd, scd⟩).2.cooldownUntil = cd
    ∧ (unified_attempt net q c cfg sid ⟨f, cd, scd⟩).2.sourceCooldownUntil = scd := by
  unfold unified_attempt
  by_cases h1 : strStartsWith sid "adapter:" = true
  · rcases hsp : search_with_provider net (splitColonTail sid) q c f with ⟨r, f1⟩
    cases r <;> simp [h1, hsp]
  · by_cases h2 : strStartsWith sid "official:" = true
    · cases ho : search_with_official_source net sid q c <;> simp [h1, h2, ho]
    · simp [h1, h2]

theorem unified_loop_state_frame (net : Net) (q : String) (c now : Int)
    (cfg : RouterConfig) :
    ∀ (chain acc : List String) (f : FileContent)
      (cd cd' scd : List (String × Int)),
      (unified_loop net q c now cfg chain acc ⟨f, cd, scd⟩).res
        = (unified_loop net q c now cfg chain acc ⟨f, cd', scd⟩).res
      ∧ (unified_loop net q c now cfg chain acc ⟨f, cd, scd⟩).records
        = (unified_loop net q c now cfg chain acc ⟨f, cd', scd⟩).records
      ∧ (unified_loop net q c now cfg chain acc ⟨f, cd, scd⟩).st.file
        = (unified_loop net q c now cfg chain acc ⟨f, cd', scd⟩).st.file
      ∧ (unified_loop net q c now cfg chain acc ⟨f, cd, scd⟩).st.sourceCooldownUntil
        = (unified_loop net q c now cfg chain acc ⟨f, cd', scd⟩).st.sourceCooldownUntil
      ∧ (unified_loop net q c now cfg chain acc ⟨f, cd, scd⟩).st.cooldownUntil
        = cd := by
  intro chain
  induction chain with
  | nil => intro acc f cd cd' scd; exact ⟨rfl, rfl, rfl, rfl, rfl⟩
  | cons sid rest ih =>
      intro acc f cd cd' scd
      by_cases h1 : lookupD scd sid > now
      case pos =>
        simpa [unified_loop, h1] using
          ih (acc ++ [recOf sid "cooldown"]) f cd cd' scd
      case neg =>
        obtain ⟨hr, hf, hcd, hscd⟩ :=
          unified_attempt_components net q c cfg sid f cd scd cd' scd
        obtain ⟨_, _, hcd', hscd'⟩ :=
          unified_attempt_components net q c cfg sid f cd' scd cd scd
        rcases hA : unified_attempt net q c cfg sid ⟨f, cd, scd⟩
          with ⟨r, f1, cdx, scdx⟩
        rcases hA' : unified_attempt net q c cfg sid ⟨f, cd', scd⟩
          with ⟨r', f1', cdy, scdy⟩
        rw [hA] at hr hf hcd hscd
        rw [hA'] at hr hf hcd' hscd'
        simp only at hr hf hcd hscd hcd' hscd'
        subst r' cdx scdx cdy scdy f1'
        cases r with
        | ok results =>
            simp [unified_loop, h1, hA, hA']
        | error e =>
            by_cases hrl : is_rate_limit_error e = true
            case pos =>
              simpa [unified_loop, h1, hA, hA', hrl] using
                ih (acc ++ [recOf sid e]) f1 cd cd'
                  ((sid, now + source_cooldown_seconds cfg sid) :: scd)
            case neg =>
              simpa [unified_loop, h1, hA, hA', hrl] using
                ih (acc ++ [recOf sid e]) f1 cd cd' scd

/-- C9.  The two executors keep disjoint cooldown state.
`search_with_failover` leaves `_SOURCE_COOLDOWN_UNTIL` exactly as it found
it, and `search_with_unified_failover` leaves `_COOLDOWN_UNTIL` exactly as
it found it (first two conjuncts); moreover the legacy executor's result
and per-candidate records are independent of the source-keyed map, and the
unified executor's result and records are independent of the adapter-keyed
map (remaining conjuncts).  Hence a rate limit recorded for `p` by one
executor never makes the other skip `p`/`adapter:p` as on-cooldown. -/
theorem c9_cooldown_state_disjoint (net : Net) (q : String) (c now : Int)
    (f : FileContent) (cd scd m m' : List (String × Int)) :
    (search_with_failover net q c now ⟨f, cd, scd⟩).st.sourceCooldownUntil = scd
    ∧ (search_with_unified_failover net q c now ⟨f, cd, scd⟩).st.cooldownUntil = cd
    ∧ (search_with_failover net q c now ⟨f, cd, m⟩).res
        = (search_with_failover net q c now ⟨f, cd, m'⟩).res
    ∧ (search_with_failover net q c now ⟨f, cd, m⟩).records
        = (search_with_failover net q c now ⟨f, cd, m'⟩).records
    ∧ (search_with_unified_failover net q c now ⟨f, m, scd⟩).res
        = (search_with_unified_failover net q c now ⟨f, m', scd⟩).res
    ∧ (search_with_unified_failover net q c now ⟨f, m, scd⟩).records
        = (search_with_unified_failover net q c now ⟨f, m', scd⟩).records := by
  refine ⟨?_, ?_, ?_, ?_, ?_, ?_⟩
  · by_cases h : provider_chain (load_search_adapters f).1 = []
    · simp [search_with_failover, h]
    · simp only [search_with_failover, h, ite_false]
      exact (legacy_loop_state_frame net q c now
        (load_search_adapters f).1 (provider_chain (load_search_adapters f).1)
        [] (load_search_adapters f).2 cd scd scd).2.2.2.2
  · by_cases h : source_chain (load_search_adapters f).1 = []
    · simp [search_with_unified_failover, h]
    · simp only [search_with_unified_failover, h, ite_false]
      exact (unified_loop_state_frame net q c now
        (load_search_adapters f).1 (source_chain (load_search_adapters f).1)
        [] (load_search_adapters f).2 cd cd scd).2.2.2.2
  · by_cases h : provider_chain (load_search_adapters f).1 = []
    · simp [search_with_failover, h]
    · simp only [search_with_failover, h, ite_false]
      exact (legacy_loop_state_frame net q c now
        (load_search_adapters f).1 (provider_chain (load_search_adapters f).1)
        [] (load_search_adapters f).2 cd m m').1
  · by_cases h : provider_chain (load_search_adapters f).1 = []
    · simp [search_with_failover, h]
    · simp only [search_with_failover, h, ite_false]
      exact (legacy_loop_state_frame net q c now
        (load_search_adapters f).1 (provider_chain (load_search_adapters f).1)
        [] (load_search_adapters f).2 cd m m').2.1
  · by_cases h : source_chain (load_search_adapters f).1 = []
    · simp [search_with_unified_failover, h]
    · simp only [search_with_unified_failover, h, ite_false]
      exact (unified_loop_state_frame net q c now
        (load_search_adapters f).1 (source_chain (load_search_adapters f).1)
        [] (load_search_adapters f).2 m m' scd).1
  · by_cases h : source_chain (load_search_adapters f).1 = []
    · simp [search_with_unified_failover, h]
    · simp only [search_with_unified_failover, h, ite_false]
      exact (unified_loop_state_frame net q c now
        (load_search_adapters f).1 (source_chain (load_search_adapters f).1)
        [] (load_search_adapters f).2 m m' scd).2.1

/-- C1, witness: the amended theorem instantiated at an arbitrary-looking
serper response and `e = "boom"`. -/
theorem c1_unified_no_precheck_witness :
    (search_with_unified_failover (oneShotNet (.error "offline") (.error "boom"))
        "q" 3 0 ⟨save_search_adapters c1CfgMissingKey, [], []⟩).res
      = .error ("all sources failed: adapter:serper:missing api key | adapter:tavily:"
          ++ "boom") :=
  (c1_unified_no_precheck (.error "offline") "boom" []).1

/-- C7, witness: the equality instantiated at a unified-field config. -/
theorem c7_source_chain_matches_spec_witness :
    source_chain c6CfgUnified = resolveSourceChain_spec c6CfgUnified :=
  (c7_source_chain_matches_spec c6CfgUnified).1

/-- C9, witness: the frame property instantiated at a concrete run that
marks serper rate-limited while the source-keyed map holds an unrelated
entry. -/
theorem c9_cooldown_state_disjoint_witness :
    (search_with_failover c6Net "q" 3 0
        ⟨save_search_adapters c6Cfg, [], [("adapter:serper", 50)]⟩).st.sourceCooldownUntil
      = [("adapter:serper", 50)] :=
  (c9_cooldown_state_disjoint c6Net "q" 3 0
    (save_search_adapters c6Cfg) [] [("adapter:serper", 50)] [] []).1

/-- C10, witness: the mirroring equation instantiated at a known id and a
missing file. -/
theorem c10_fallback_mirror_only_nonempty_witness :
    set_fallback_providers ["tavily"] FileContent.absent
      = (true, save_search_adapters
          (if normalize_provider_ids ["tavily"] = []
           then { (load_search_adapters FileContent.absent).1 with fallbacks := [] }
           else { (load_search_adapters FileContent.absent).1 with
                  fallbacks := normalize_provider_ids ["tavily"],
                  fallbackSources := (normalize_provider_ids ["tavily"]).map
                    (fun x => "adapter:" ++ x) })) :=
  (c10_fallback_mirror_only_nonempty ["tavily"] FileContent.absent).1
